import Mathlib

/-!
Shallow embedding of `src/broadcast.js` (the Broadcast notice/log manager).

The JS module is an IIFE closing over a `config` constant, a static
`notices` array and a mutable `store`; it manipulates four page elements
(`noticeBanner`, `noticeText`, `logsContainer`, `closeNotice`) and one
`setTimeout` timer.  Here the closed-over configuration data (`config`,
`notices`) and the browser-supplied locale formatters
(`toLocaleDateString` / `toLocaleTimeString`) become explicit parameters,
and all mutation becomes explicit state passing on a `State` record that
bundles the store, the page elements, the set of pending timers, the
console-error log and a ghost counter of `displayNotice` invocations.
-/

namespace Broadcast

/-- A static notice record.  `importance` is `none` when the field is
absent (`undefined` in JS); the source's own notices always carry one of
`"info"`, `"warning"`, `"update"`, `"alert"`. -/
structure Notice where
  id : Nat
  message : String
  importance : Option String
  timestamp : String
  deriving Repr, DecidableEq

/-- A runtime log entry (`{timestamp, message, type}` in the source). -/
structure LogEntry where
  timestamp : String
  message : String
  type : String
  deriving Repr, DecidableEq

/-- The `config` constant of the module. -/
structure Config where
  noticeDisplayTime : Nat
  maxLogEntries : Nat
  deriving Repr, DecidableEq

/-- `config = { noticeDisplayTime: 15000, maxLogEntries: 50 }`. -/
def config : Config := { noticeDisplayTime := 15000, maxLogEntries := 50 }

/-- The mutable `store` object: logs, current notice, timer handle. -/
structure Store where
  logs : List LogEntry
  currentNotice : Option Notice
  noticeTimer : Option Nat
  deriving Repr, DecidableEq

/-- A node rendered into the logs container by `updateLogsUI`: either a
section header `div` or a log-entry `div` with its class string, its
formatted timestamp span and its message span. -/
inductive LogNode where
  | header (text : String)
  | entry (cls : String) (timeDisplay : String) (message : String)
  deriving Repr, DecidableEq

/-- The page elements the module touches, each possibly absent.
`noticeBanner` is its class list, `noticeText` its text content,
`logsContainer` its rendered children, `closeNotice` just presence. -/
structure Dom where
  noticeBanner : Option (List String)
  noticeText : Option String
  logsContainer : Option (List LogNode)
  closeNotice : Bool
  deriving Repr, DecidableEq

/-- The whole program state: the store, the page, the pending
`setTimeout` timers as `(handle, delay-ms)` pairs with a fresh-handle
counter, the current clock reading (what `new Date().toISOString()`
returns), the `console.error` output, and a ghost counter of
`displayNotice` invocations (instrumentation only - no operation reads
it). -/
structure State where
  store : Store
  dom : Dom
  pendingTimers : List (Nat × Nat)
  nextTimerId : Nat
  now : String
  consoleErrors : List String
  displayCount : Nat
  deriving Repr, DecidableEq

/-- The browser-supplied locale formatters used on `new Date(ts)`. -/
structure Locale where
  toLocaleDateString : String → String
  toLocaleTimeString : String → String

/-- `el.classList.add c`: appends `c` unless already present. -/
def classListAdd (c : String) (l : List String) : List String :=
  if c ∈ l then l else l ++ [c]

/-- `el.classList.remove c`: removes the token `c`. -/
def classListRemove (c : String) (l : List String) : List String :=
  l.filter (fun x => x ≠ c)

/-- `clearTimeout id`: the timer with that handle is no longer pending. -/
def clearTimeout (id : Nat) (s : State) : State :=
  { s with pendingTimers := s.pendingTimers.filter (fun t => t.1 ≠ id) }

/-- The static `notices` array of the source, newest first. -/
def notices : List Notice :=
  [ { id := 7
      message := "Distrubute your X posts easily with our Quote Generator"
      importance := some "update"
      timestamp := "2025-04-02T02:42:00Z" },
    { id := 6
      message := "Verify a domain SSL status, without getting cached. (REMOVED)"
      importance := some "warning"
      timestamp := "2025-03-10T02:42:00Z" },
    { id := 5
      message := "Huge update for X profile, business & affiliate badges added"
      importance := some "update"
      timestamp := "2025-02-27T10:00:00Z" },
    { id := 4
      message := "WhatsApp link generator has been updated with new features!"
      importance := some "update"
      timestamp := "2025-02-27T10:00:00Z" },
    { id := 3
      message := "System maintenance scheduled for tomorrow at 2 AM UTC"
      importance := some "warning"
      timestamp := "2025-02-26T15:30:00Z" },
    { id := 2
      message := "New tool coming soon: Color Palette Generator"
      importance := some "info"
      timestamp := "2025-02-25T12:45:00Z" },
    { id := 1
      message := "Welcome to Web Tools Collection! Explore our tools."
      importance := some "info"
      timestamp := "2025-02-24T09:00:00Z" } ]

/-- JS template-literal stringification of a possibly-absent importance
(an absent field prints as `undefined` inside a template literal). -/
def importanceText : Option String → String
  | some c => c
  | none => "undefined"

/-- The `div` built for one static notice inside `updateLogsUI`:
class `log-entry log-<importance>`, timestamp span
`toLocaleDateString + " " + toLocaleTimeString`, message span. -/
def noticeLogNode (locale : Locale) (n : Notice) : LogNode :=
  LogNode.entry ("log-entry log-" ++ importanceText n.importance)
    (locale.toLocaleDateString n.timestamp ++ " " ++ locale.toLocaleTimeString n.timestamp)
    n.message

/-- The `div` built for one runtime log entry inside `updateLogsUI`:
class `log-entry log-<type>`, time-only timestamp span, message span. -/
def logLogNode (locale : Locale) (e : LogEntry) : LogNode :=
  LogNode.entry ("log-entry log-" ++ e.type)
    (locale.toLocaleTimeString e.timestamp)
    e.message

/-- `updateLogsUI()`: if the logs container is absent, return (silently);
otherwise clear it and rebuild: "Notice History:" header, one node per
static notice in list order, "System Logs:" header, one node per stored
log entry in stored (newest-first) order. -/
def updateLogsUI (locale : Locale) (notices : List Notice) (s : State) : State :=
  match s.dom.logsContainer with
  | none => s
  | some _ =>
    let rebuilt : List LogNode :=
      LogNode.header "Notice History:" ::
        (notices.map (noticeLogNode locale) ++
          LogNode.header "System Logs:" ::
            s.store.logs.map (logLogNode locale))
    { s with dom := { s.dom with logsContainer := some rebuilt } }

/-- `addLogEntry(message, type = 'info')`: build an entry stamped with the
current time (the `'info'` default applies exactly when the argument is
`undefined`, i.e. `none`), unshift it onto `store.logs`, slice the list
down to `maxLogEntries` if it now exceeds it, then `updateLogsUI()`. -/
def addLogEntry (cfg : Config) (locale : Locale) (notices : List Notice)
    (message : String) (ty : Option String) (s : State) : State :=
  let logEntry : LogEntry := { timestamp := s.now, message := message, type := ty.getD "info" }
  let logs := logEntry :: s.store.logs
  let logs := if logs.length > cfg.maxLogEntries then logs.take cfg.maxLogEntries else logs
  updateLogsUI locale notices { s with store := { s.store with logs := logs } }

/-- `displayNotice(notice)`: if the banner or text element is absent,
`console.error` and return; otherwise set the text, reset the banner
classes to `notice-banner active`, add the importance class when the
importance is truthy, add `active`, clear any existing timer, schedule a
fresh auto-hide timer for `noticeDisplayTime` ms, store its handle and
store the notice as current.  The ghost `displayCount` records the
invocation. -/
def displayNotice (cfg : Config) (notice : Notice) (s : State) : State :=
  let s := { s with displayCount := s.displayCount + 1 }
  match s.dom.noticeBanner, s.dom.noticeText with
  | some _, some _ =>
    let cls := ["notice-banner", "active"]
    let cls := match notice.importance with
      | some c => classListAdd c cls
      | none => cls
    let cls := classListAdd "active" cls
    let s := { s with dom := { s.dom with
                 noticeText := some notice.message, noticeBanner := some cls } }
    let s := match s.store.noticeTimer with
      | some id => clearTimeout id s
      | none => s
    let tid := s.nextTimerId
    let s := { s with
      pendingTimers := s.pendingTimers ++ [(tid, cfg.noticeDisplayTime)],
      nextTimerId := tid + 1 }
    { s with store := { s.store with
        noticeTimer := some tid, currentNotice := some notice } }
  | _, _ =>
    { s with consoleErrors := s.consoleErrors ++ ["Notice banner elements not found"] }

/-- A pending auto-hide timer elapsing: if the handle is still pending,
remove it and run the scheduled callback, which removes `active` from the
banner's class list; an already-cleared handle does nothing. -/
def fireTimer (id : Nat) (s : State) : State :=
  if s.pendingTimers.any (fun t => t.1 = id) then
    { s with
      pendingTimers := s.pendingTimers.filter (fun t => t.1 ≠ id),
      dom := { s.dom with noticeBanner := s.dom.noticeBanner.map (classListRemove "active") } }
  else s

/-- `hideNotice()`: remove `active` from the banner when the banner
exists; clear the pending timer and null the handle when one is set. -/
def hideNotice (s : State) : State :=
  let s := match s.dom.noticeBanner with
    | some cls =>
      { s with dom := { s.dom with noticeBanner := some (classListRemove "active" cls) } }
    | none => s
  match s.store.noticeTimer with
  | some id =>
    let s := clearTimeout id s
    { s with store := { s.store with noticeTimer := none } }
  | none => s

/-- `getAllNotices()`: returns the closed-over static notice list; the
state flows through untouched (the body is just `return notices`). -/
def getAllNotices (notices : List Notice) (s : State) : List Notice × State :=
  (notices, s)

/-- `setupCloseButton()`: attach the click handler when the close button
exists, else `console.error`. -/
def setupCloseButton (s : State) : State :=
  if s.dom.closeNotice then s
  else { s with consoleErrors := s.consoleErrors ++ ["Close button element not found"] }

/-- `init()`: log startup; if the notice list is non-empty display
`notices[0]` and log `Displaying notice: <message>` with the notice's
importance as type, else log `No notices available`; render the logs;
wire the close button; log readiness. -/
def init (cfg : Config) (locale : Locale) (notices : List Notice) (s : State) : State :=
  let s := addLogEntry cfg locale notices "Broadcast system initialized" none s
  let s := match notices with
    | latestNotice :: _ =>
      let s := displayNotice cfg latestNotice s
      addLogEntry cfg locale notices
        ("Displaying notice: " ++ latestNotice.message) latestNotice.importance s
    | [] =>
      addLogEntry cfg locale notices "No notices available" none s
  let s := updateLogsUI locale notices s
  let s := setupCloseButton s
  addLogEntry cfg locale notices "Broadcast system ready" none s

/-- A locale whose formatters are the identity, for concrete runs. -/
def plainLocale : Locale :=
  { toLocaleDateString := fun ts => ts, toLocaleTimeString := fun ts => ts }

/-- A fully-populated fresh page state, for concrete runs. -/
def freshState : State :=
  { store := { logs := [], currentNotice := none, noticeTimer := none }
    dom := { noticeBanner := some ["notice-banner"], noticeText := some "",
             logsContainer := some [], closeNotice := true }
    pendingTimers := []
    nextTimerId := 1
    now := "2026-01-01T00:00:00.000Z"
    consoleErrors := []
    displayCount := 0 }

/-- At most one auto-hide timer is pending, and any pending timer is the
one whose handle the store holds. -/
def atMostOneTimer (s : State) : Prop :=
  s.pendingTimers.length ≤ 1 ∧ ∀ t ∈ s.pendingTimers, s.store.noticeTimer = some t.1

/-- A configuration with a small log cap, for concrete runs. -/
def smallConfig : Config := { noticeDisplayTime := 15000, maxLogEntries := 2 }

/-- A sample notice carrying an importance, for concrete runs. -/
def sampleNotice : Notice :=
  { id := 1, message := "A", importance := some "info",
    timestamp := "2025-01-01T00:00:00Z" }

/-- A sample notice with the importance field absent, for concrete runs. -/
def plainNotice : Notice :=
  { id := 0, message := "plain", importance := none,
    timestamp := "2025-01-01T00:00:00Z" }

/-- The fresh page state with the logs container missing. -/
def noContainerState : State :=
  { freshState with dom := { freshState.dom with logsContainer := none } }

/-- The fresh page state with the banner element missing. -/
def noBannerState : State :=
  { freshState with dom := { freshState.dom with noticeBanner := none } }

/-! ### Basic lemmas about the embedded operations -/

theorem classListAdd_mem_self (c : String) (l : List String) : c ∈ classListAdd c l := by
  unfold classListAdd
  split
  case isTrue h => exact h
  case isFalse h => simp

theorem mem_classListAdd_of_mem {a : String} (c : String) {l : List String}
    (h : a ∈ l) : a ∈ classListAdd c l := by
  unfold classListAdd
  split
  case isTrue _ => exact h
  case isFalse _ => exact List.mem_append_left _ h

theorem classListRemove_idem (c : String) (l : List String) :
    classListRemove c (classListRemove c l) = classListRemove c l := by
  simp [classListRemove, List.filter_filter]

theorem classListRemove_of_not_mem {c : String} {l : List String} (h : c ∉ l) :
    classListRemove c l = l := by
  unfold classListRemove
  rw [List.filter_eq_self]
  intro a ha
  simp only [ne_eq, decide_eq_true_eq]
  intro rfl_eq
  exact h (rfl_eq ▸ ha)

theorem updateLogsUI_store (locale : Locale) (ns : List Notice) (s : State) :
    (updateLogsUI locale ns s).store = s.store := by
  unfold updateLogsUI
  cases s.dom.logsContainer <;> rfl

theorem updateLogsUI_now (locale : Locale) (ns : List Notice) (s : State) :
    (updateLogsUI locale ns s).now = s.now := by
  unfold updateLogsUI
  cases s.dom.logsContainer <;> rfl

theorem updateLogsUI_pendingTimers (locale : Locale) (ns : List Notice) (s : State) :
    (updateLogsUI locale ns s).pendingTimers = s.pendingTimers := by
  unfold updateLogsUI
  cases s.dom.logsContainer <;> rfl

theorem updateLogsUI_nextTimerId (locale : Locale) (ns : List Notice) (s : State) :
    (updateLogsUI locale ns s).nextTimerId = s.nextTimerId := by
  unfold updateLogsUI
  cases s.dom.logsContainer <;> rfl

theorem updateLogsUI_consoleErrors (locale : Locale) (ns : List Notice) (s : State) :
    (updateLogsUI locale ns s).consoleErrors = s.consoleErrors := by
  unfold updateLogsUI
  cases s.dom.logsContainer <;> rfl

theorem updateLogsUI_displayCount (locale : Locale) (ns : List Notice) (s : State) :
    (updateLogsUI locale ns s).displayCount = s.displayCount := by
  unfold updateLogsUI
  cases s.dom.logsContainer <;> rfl

theorem updateLogsUI_noticeBanner (locale : Locale) (ns : List Notice) (s : State) :
    (updateLogsUI locale ns s).dom.noticeBanner = s.dom.noticeBanner := by
  unfold updateLogsUI
  cases s.dom.logsContainer <;> rfl

theorem updateLogsUI_noticeText (locale : Locale) (ns : List Notice) (s : State) :
    (updateLogsUI locale ns s).dom.noticeText = s.dom.noticeText := by
  unfold updateLogsUI
  cases s.dom.logsContainer <;> rfl

theorem setupCloseButton_store (s : State) : (setupCloseButton s).store = s.store := by
  unfold setupCloseButton
  split <;> rfl

theorem setupCloseButton_dom (s : State) : (setupCloseButton s).dom = s.dom := by
  unfold setupCloseButton
  split <;> rfl

theorem setupCloseButton_now (s : State) : (setupCloseButton s).now = s.now := by
  unfold setupCloseButton
  split <;> rfl

theorem setupCloseButton_pendingTimers (s : State) :
    (setupCloseButton s).pendingTimers = s.pendingTimers := by
  unfold setupCloseButton
  split <;> rfl

theorem setupCloseButton_nextTimerId (s : State) :
    (setupCloseButton s).nextTimerId = s.nextTimerId := by
  unfold setupCloseButton
  split <;> rfl

theorem setupCloseButton_displayCount (s : State) :
    (setupCloseButton s).displayCount = s.displayCount := by
  unfold setupCloseButton
  split <;> rfl

theorem addLogEntry_store_logs (cfg : Config) (locale : Locale) (ns : List Notice)
    (m : String) (ty : Option String) (s : State) :
    (addLogEntry cfg locale ns m ty s).store.logs =
      (({ timestamp := s.now, message := m, type := ty.getD "info" } : LogEntry)
        :: s.store.logs).take cfg.maxLogEntries := by
  unfold addLogEntry
  rw [updateLogsUI_store]
  split
  case isTrue h => rfl
  case isFalse h =>
    show _ :: _ = _
    exact (List.take_of_length_le (Nat.le_of_not_lt h)).symm

theorem addLogEntry_logs_small (cfg : Config) (locale : Locale) (ns : List Notice)
    (m : String) (ty : Option String) (s : State)
    (h : s.store.logs.length + 1 ≤ cfg.maxLogEntries) :
    (addLogEntry cfg locale ns m ty s).store.logs =
      ({ timestamp := s.now, message := m, type := ty.getD "info" } : LogEntry)
        :: s.store.logs := by
  rw [addLogEntry_store_logs]
  exact List.take_of_length_le (by simpa using h)

theorem addLogEntry_currentNotice (cfg : Config) (locale : Locale) (ns : List Notice)
    (m : String) (ty : Option String) (s : State) :
    (addLogEntry cfg locale ns m ty s).store.currentNotice = s.store.currentNotice := by
  unfold addLogEntry
  rw [updateLogsUI_store]

theorem addLogEntry_noticeTimer (cfg : Config) (locale : Locale) (ns : List Notice)
    (m : String) (ty : Option String) (s : State) :
    (addLogEntry cfg locale ns m ty s).store.noticeTimer = s.store.noticeTimer := by
  unfold addLogEntry
  rw [updateLogsUI_store]

theorem addLogEntry_now (cfg : Config) (locale : Locale) (ns : List Notice)
    (m : String) (ty : Option String) (s : State) :
    (addLogEntry cfg locale ns m ty s).now = s.now := by
  unfold addLogEntry
  rw [updateLogsUI_now]

theorem addLogEntry_pendingTimers (cfg : Config) (locale : Locale) (ns : List Notice)
    (m : String) (ty : Option String) (s : State) :
    (addLogEntry cfg locale ns m ty s).pendingTimers = s.pendingTimers := by
  unfold addLogEntry
  rw [updateLogsUI_pendingTimers]

theorem addLogEntry_nextTimerId (cfg : Config) (locale : Locale) (ns : List Notice)
    (m : String) (ty : Option String) (s : State) :
    (addLogEntry cfg locale ns m ty s).nextTimerId = s.nextTimerId := by
  unfold addLogEntry
  rw [updateLogsUI_nextTimerId]

theorem addLogEntry_consoleErrors (cfg : Config) (locale : Locale) (ns : List Notice)
    (m : String) (ty : Option String) (s : State) :
    (addLogEntry cfg locale ns m ty s).consoleErrors = s.consoleErrors := by
  unfold addLogEntry
  rw [updateLogsUI_consoleErrors]

theorem addLogEntry_displayCount (cfg : Config) (locale : Locale) (ns : List Notice)
    (m : String) (ty : Option String) (s : State) :
    (addLogEntry cfg locale ns m ty s).displayCount = s.displayCount := by
  unfold addLogEntry
  rw [updateLogsUI_displayCount]

theorem addLogEntry_noticeBanner (cfg : Config) (locale : Locale) (ns : List Notice)
    (m : String) (ty : Option String) (s : State) :
    (addLogEntry cfg locale ns m ty s).dom.noticeBanner = s.dom.noticeBanner := by
  unfold addLogEntry
  rw [updateLogsUI_noticeBanner]

theorem addLogEntry_noticeText (cfg : Config) (locale : Locale) (ns : List Notice)
    (m : String) (ty : Option String) (s : State) :
    (addLogEntry cfg locale ns m ty s).dom.noticeText = s.dom.noticeText := by
  unfold addLogEntry
  rw [updateLogsUI_noticeText]

theorem displayNotice_some (cfg : Config) (n : Notice) (s : State) (b : List String)
    (t : String) (hb : s.dom.noticeBanner = some b) (ht : s.dom.noticeText = some t) :
    displayNotice cfg n s =
      { store := { logs := s.store.logs,
                   currentNotice := some n,
                   noticeTimer := some s.nextTimerId },
        dom := { s.dom with
                 noticeText := some n.message,
                 noticeBanner := some (classListAdd "active"
                   (match n.importance with
                    | some c => classListAdd c ["notice-banner", "active"]
                    | none => ["notice-banner", "active"])) },
        pendingTimers := (match s.store.noticeTimer with
          | some id => s.pendingTimers.filter (fun x => x.1 ≠ id)
          | none => s.pendingTimers) ++ [(s.nextTimerId, cfg.noticeDisplayTime)],
        nextTimerId := s.nextTimerId + 1,
        now := s.now,
        consoleErrors := s.consoleErrors,
        displayCount := s.displayCount + 1 } := by
  rcases s with ⟨⟨logs, cur, tm⟩, ⟨nb, nt, lc, cb⟩, pt, nid, now, ce, dc⟩
  simp only at hb ht
  subst hb
  subst ht
  cases tm <;> rfl

theorem displayNotice_missing (cfg : Config) (n : Notice) (s : State)
    (h : s.dom.noticeBanner = none ∨ s.dom.noticeText = none) :
    displayNotice cfg n s =
      { s with consoleErrors := s.consoleErrors ++ ["Notice banner elements not found"],
               displayCount := s.displayCount + 1 } := by
  rcases s with ⟨⟨logs, cur, tm⟩, ⟨nb, nt, lc, cb⟩, pt, nid, now, ce, dc⟩
  rcases h with h | h
  · simp only at h
    subst h
    cases nt <;> rfl
  · simp only at h
    subst h
    cases nb <;> rfl

theorem hideNotice_currentNotice (s : State) :
    (hideNotice s).store.currentNotice = s.store.currentNotice := by
  rcases s with ⟨⟨logs, cur, tm⟩, ⟨nb, nt, lc, cb⟩, pt, nid, now, ce, dc⟩
  cases nb <;> cases tm <;> rfl

theorem hideNotice_logs (s : State) :
    (hideNotice s).store.logs = s.store.logs := by
  rcases s with ⟨⟨logs, cur, tm⟩, ⟨nb, nt, lc, cb⟩, pt, nid, now, ce, dc⟩
  cases nb <;> cases tm <;> rfl

/-- Trimming an already-trimmed tail commutes with taking the cap. -/
theorem take_append_take {α : Type} (A x : List α) (C : Nat) :
    (A ++ x.take C).take C = (A ++ x).take C := by
  rw [List.take_append_eq_append_take, List.take_append_eq_append_take, List.take_take]
  rw [Nat.min_eq_left (Nat.sub_le C A.length)]

/-- Folding `addLogEntry` over a list of (message, type) pairs: the final
log is the reversed entry list prepended to the start log, trimmed to the
cap, and the clock never moves. -/
theorem foldl_addLogEntry_logs (cfg : Config) (locale : Locale) (ns : List Notice)
    (ms : List (String × Option String)) :
    ∀ (s : State), s.store.logs.length ≤ cfg.maxLogEntries →
      (List.foldl (fun st m => addLogEntry cfg locale ns m.1 m.2 st) s ms).store.logs =
        ((ms.map (fun m =>
            ({ timestamp := s.now, message := m.1, type := m.2.getD "info" } : LogEntry))).reverse
          ++ s.store.logs).take cfg.maxLogEntries ∧
      (List.foldl (fun st m => addLogEntry cfg locale ns m.1 m.2 st) s ms).now = s.now := by
  induction ms with
  | nil =>
    intro s h
    exact ⟨by simpa using (List.take_of_length_le h).symm, rfl⟩
  | cons m tl ih =>
    intro s h
    simp only [List.foldl_cons]
    have h1 := addLogEntry_store_logs cfg locale ns m.1 m.2 s
    have hlen : (addLogEntry cfg locale ns m.1 m.2 s).store.logs.length ≤ cfg.maxLogEntries := by
      rw [h1]
      simp [List.length_take]
    obtain ⟨ihl, ihn⟩ := ih (addLogEntry cfg locale ns m.1 m.2 s) hlen
    refine ⟨?_, by rw [ihn, addLogEntry_now]⟩
    rw [ihl, addLogEntry_now, h1, take_append_take]
    simp [List.append_assoc]

/-- Under the one-timer invariant, clearing the stored handle empties the
pending-timer list (this is the list `displayNotice` schedules onto). -/
theorem cleared_of_atMostOne (s : State) (h : atMostOneTimer s) :
    (match s.store.noticeTimer with
     | some id => s.pendingTimers.filter (fun x => x.1 ≠ id)
     | none => s.pendingTimers) = [] := by
  obtain ⟨hlen, hall⟩ := h
  cases htm : s.store.noticeTimer with
  | none =>
    cases hpt : s.pendingTimers with
    | nil => rfl
    | cons a l =>
      have := hall a (by rw [hpt]; exact List.mem_cons_self a l)
      rw [htm] at this
      exact absurd this (by simp)
  | some id =>
    simp only
    rw [List.filter_eq_nil_iff]
    intro a ha
    have := hall a ha
    rw [htm] at this
    simp only [Option.some.injEq] at this
    simp [this]

/-! ### Claims -/

/-- C9: `getAllNotices` returns the static notice list unchanged and
modifies no component of the state; two successive calls return the same
list. -/
theorem getAllNotices_readonly (ns : List Notice) (s : State) :
    getAllNotices ns s = (ns, s) ∧
    (getAllNotices ns (getAllNotices ns s).2).1 = (getAllNotices ns s).1 :=
  ⟨rfl, rfl⟩

/-- C4: `hideNotice` is idempotent: hiding twice equals hiding once, and
hiding when the banner is already hidden (no `active` class) and no timer
is pending leaves the state unchanged, raising no error. -/
theorem hideNotice_idempotent (s : State) :
    hideNotice (hideNotice s) = hideNotice s ∧
    (s.store.noticeTimer = none →
      (∀ cls, s.dom.noticeBanner = some cls → "active" ∉ cls) →
      hideNotice s = s) := by
  rcases s with ⟨⟨logs, cur, tm⟩, ⟨nb, nt, lc, cb⟩, pt, nid, now, ce, dc⟩
  constructor
  · cases nb <;> cases tm <;>
      simp [hideNotice, clearTimeout, classListRemove_idem]
  · intro htm hcls
    simp only at htm
    subst htm
    cases nb with
    | none => rfl
    | some cls =>
      have hre : classListRemove "active" cls = cls :=
        classListRemove_of_not_mem (hcls cls rfl)
      simp [hideNotice, hre]

/-- C4 witness: hiding the fresh (already hidden, timer-free) state twice
equals hiding once, and hiding it once changes nothing. -/
theorem hideNotice_idempotent_witness :
    hideNotice (hideNotice freshState) = hideNotice freshState ∧
    hideNotice freshState = freshState :=
  ⟨(hideNotice_idempotent freshState).1,
   (hideNotice_idempotent freshState).2 rfl (by
      intro cls h
      simp only [freshState, Option.some.injEq] at h
      subst h
      decide)⟩

/-- C10: `hideNotice` never clears the current-notice reference: after a
successful display of `n`, any number of hides leaves the stored current
notice equal to `n`, and a single hide always preserves the reference. -/
theorem hide_preserves_currentNotice (cfg : Config) (n : Notice) (s : State)
    (b : List String) (t : String) (k : Nat)
    (hb : s.dom.noticeBanner = some b) (ht : s.dom.noticeText = some t) :
    (hideNotice^[k] (displayNotice cfg n s)).store.currentNotice = some n ∧
    (∀ u : State, (hideNotice u).store.currentNotice = u.store.currentNotice) := by
  refine ⟨?_, hideNotice_currentNotice⟩
  induction k with
  | zero =>
    rw [Function.iterate_zero_apply, displayNotice_some cfg n s b t hb ht]
  | succ k ihk =>
    rw [Function.iterate_succ_apply', hideNotice_currentNotice]
    exact ihk

/-- C10 witness: display a sample notice on the fresh state, hide twice;
the current notice is still the sample notice. -/
theorem hide_preserves_currentNotice_witness :
    (hideNotice^[2] (displayNotice config sampleNotice freshState)).store.currentNotice
      = some sampleNotice ∧
    (∀ u : State, (hideNotice u).store.currentNotice = u.store.currentNotice) :=
  hide_preserves_currentNotice config sampleNotice freshState ["notice-banner"] "" 2 rfl rfl

/-- C8: displaying a notice whose importance is absent adds no style class
beyond the base banner classes, still renders the message and makes the
banner visible, and raises no error. -/
theorem displayNotice_absent_importance (cfg : Config) (n : Notice) (s : State)
    (b : List String) (t : String) (hi : n.importance = none)
    (hb : s.dom.noticeBanner = some b) (ht : s.dom.noticeText = some t) :
    (displayNotice cfg n s).dom.noticeBanner = some ["notice-banner", "active"] ∧
    (displayNotice cfg n s).dom.noticeText = some n.message ∧
    (displayNotice cfg n s).consoleErrors = s.consoleErrors := by
  rw [displayNotice_some cfg n s b t hb ht]
  refine ⟨?_, rfl, rfl⟩
  rw [hi]
  simp [classListAdd]

/-- C8 witness: displaying the importance-free sample notice on the fresh
state yields exactly the base classes, the rendered message, and no
console error. -/
theorem displayNotice_absent_importance_witness :
    (displayNotice config plainNotice freshState).dom.noticeBanner
      = some ["notice-banner", "active"] ∧
    (displayNotice config plainNotice freshState).dom.noticeText
      = some plainNotice.message ∧
    (displayNotice config plainNotice freshState).consoleErrors
      = freshState.consoleErrors :=
  displayNotice_absent_importance config plainNotice freshState
    ["notice-banner"] "" rfl rfl rfl

/-- C6 counterexample: with the logs container missing, `updateLogsUI`
(RenderLog) produces no diagnostic at all - the state, including the
console-error list (still empty), is completely unchanged - contradicting
"the operation logs a diagnostic". -/
theorem updateLogsUI_missing_silent :
    updateLogsUI plainLocale notices noContainerState = noContainerState ∧
    (updateLogsUI plainLocale notices noContainerState).consoleErrors = [] :=
  ⟨rfl, rfl⟩

/-- C6 amended: with a required element missing the operation skips the
dependent rendering step without raising an exception - `displayNotice`
logs a `console.error` diagnostic and leaves the store, the timers and
the page untouched, while `updateLogsUI` skips silently, changing
nothing. -/
theorem missing_elements_degrade :
    (∀ (cfg : Config) (n : Notice) (s : State),
        s.dom.noticeBanner = none ∨ s.dom.noticeText = none →
        (displayNotice cfg n s).store = s.store ∧
        (displayNotice cfg n s).pendingTimers = s.pendingTimers ∧
        (displayNotice cfg n s).dom = s.dom ∧
        (displayNotice cfg n s).consoleErrors
          = s.consoleErrors ++ ["Notice banner elements not found"]) ∧
    (∀ (locale : Locale) (ns : List Notice) (s : State),
        s.dom.logsContainer = none → updateLogsUI locale ns s = s) := by
  constructor
  · intro cfg n s h
    rw [displayNotice_missing cfg n s h]
    exact ⟨rfl, rfl, rfl, rfl⟩
  · intro locale ns s h
    unfold updateLogsUI
    rw [h]

/-- C6 witness: displaying on the banner-less fresh state leaves the
store unchanged and records the diagnostic; rendering the logs with the
container missing changes nothing. -/
theorem missing_elements_degrade_witness :
    (displayNotice config sampleNotice noBannerState).store = noBannerState.store ∧
    (displayNotice config sampleNotice noBannerState).consoleErrors
      = noBannerState.consoleErrors ++ ["Notice banner elements not found"] ∧
    updateLogsUI plainLocale notices noContainerState = noContainerState :=
  ⟨(missing_elements_degrade.1 config sampleNotice noBannerState (Or.inl rfl)).1,
   (missing_elements_degrade.1 config sampleNotice noBannerState (Or.inl rfl)).2.2.2,
   missing_elements_degrade.2 plainLocale notices noContainerState rfl⟩

/-- C7 counterexample: on the empty notice list `init` never logs the
lowercase message `no notices available` claimed by the spec - the code
logs `No notices available` (capital N). -/
theorem init_empty_message_not_lowercase :
    ¬ ("no notices available" ∈
        (init config plainLocale [] freshState).store.logs.map LogEntry.message) := by
  decide

/-- C7 amended: for the empty notice list, `init` appends a log entry
`No notices available` (the code capitalizes the message) and never calls
`displayNotice` (the ghost invocation counter is unchanged). -/
theorem init_empty_no_display (locale : Locale) (s : State)
    (h0 : s.store.logs = []) :
    (init config locale [] s).store.logs.map (fun e => (e.message, e.type)) =
      [("Broadcast system ready", "info"), ("No notices available", "info"),
       ("Broadcast system initialized", "info")] ∧
    (init config locale [] s).displayCount = s.displayCount := by
  constructor
  · show (addLogEntry config locale [] "Broadcast system ready" none
        (setupCloseButton (updateLogsUI locale []
          (addLogEntry config locale [] "No notices available" none
            (addLogEntry config locale [] "Broadcast system initialized" none
              s))))).store.logs.map _ = _
    have e1 : (addLogEntry config locale [] "Broadcast system initialized" none
        s).store.logs =
        [{ timestamp := s.now, message := "Broadcast system initialized",
           type := "info" }] := by
      rw [addLogEntry_logs_small _ _ _ _ _ _ (by simp [h0, config]), h0]
      rfl
    have e2 : (addLogEntry config locale [] "No notices available" none
        (addLogEntry config locale [] "Broadcast system initialized" none
          s)).store.logs =
        [{ timestamp := s.now, message := "No notices available", type := "info" },
         { timestamp := s.now, message := "Broadcast system initialized",
           type := "info" }] := by
      rw [addLogEntry_logs_small _ _ _ _ _ _ (by rw [e1]; simp [config]), e1,
        addLogEntry_now]
      rfl
    rw [addLogEntry_logs_small _ _ _ _ _ _
        (by rw [setupCloseButton_store, updateLogsUI_store, e2]; simp [config])]
    rw [setupCloseButton_store, updateLogsUI_store, e2,
      setupCloseButton_now, updateLogsUI_now, addLogEntry_now, addLogEntry_now]
    simp
  · show (addLogEntry config locale [] "Broadcast system ready" none
        (setupCloseButton (updateLogsUI locale []
          (addLogEntry config locale [] "No notices available" none
            (addLogEntry config locale [] "Broadcast system initialized" none
              s))))).displayCount = _
    rw [addLogEntry_displayCount, setupCloseButton_displayCount,
      updateLogsUI_displayCount, addLogEntry_displayCount, addLogEntry_displayCount]

/-- C7 witness: initializing the fresh state with the empty notice list
yields exactly the three expected log entries and no display call. -/
theorem init_empty_no_display_witness :
    (init config plainLocale [] freshState).store.logs.map
        (fun e => (e.message, e.type)) =
      [("Broadcast system ready", "info"), ("No notices available", "info"),
       ("Broadcast system initialized", "info")] ∧
    (init config plainLocale [] freshState).displayCount
      = freshState.displayCount :=
  init_empty_no_display plainLocale freshState rfl

/-- C1: for a non-empty notice list, `init` displays exactly the notice
at index 0: it renders that notice's message, applies the style class
equal to its importance, stores it as current, appends a log entry
`Displaying notice: <message>` typed with its importance, and invokes
`displayNotice` exactly once. -/
theorem init_displays_head (locale : Locale) (n : Notice) (rest : List Notice)
    (s : State) (imp : String) (b : List String) (t : String)
    (himp : n.importance = some imp)
    (hb : s.dom.noticeBanner = some b) (ht : s.dom.noticeText = some t)
    (h0 : s.store.logs = []) :
    (init config locale (n :: rest) s).dom.noticeText = some n.message ∧
    (∀ cls, (init config locale (n :: rest) s).dom.noticeBanner = some cls →
      imp ∈ cls) ∧
    (init config locale (n :: rest) s).store.currentNotice = some n ∧
    (init config locale (n :: rest) s).store.logs.get? 1 =
      some { timestamp := s.now, message := "Displaying notice: " ++ n.message,
             type := imp } ∧
    (init config locale (n :: rest) s).displayCount = s.displayCount + 1 := by
  simp only [init]
  have hb1 : (addLogEntry config locale (n :: rest) "Broadcast system initialized"
      none s).dom.noticeBanner = some b := by
    rw [addLogEntry_noticeBanner, hb]
  have ht1 : (addLogEntry config locale (n :: rest) "Broadcast system initialized"
      none s).dom.noticeText = some t := by
    rw [addLogEntry_noticeText, ht]
  have hD := displayNotice_some config n
    (addLogEntry config locale (n :: rest) "Broadcast system initialized" none s)
    b t hb1 ht1
  have eInit : (addLogEntry config locale (n :: rest) "Broadcast system initialized"
      none s).store.logs =
      [{ timestamp := s.now, message := "Broadcast system initialized",
         type := "info" }] := by
    rw [addLogEntry_logs_small _ _ _ _ _ _ (by simp [h0, config]), h0]
    rfl
  have eD : (displayNotice config n
      (addLogEntry config locale (n :: rest) "Broadcast system initialized"
        none s)).store.logs =
      [{ timestamp := s.now, message := "Broadcast system initialized",
         type := "info" }] := by
    rw [hD]
    exact eInit
  have nowD : (displayNotice config n
      (addLogEntry config locale (n :: rest) "Broadcast system initialized"
        none s)).now = s.now := by
    rw [hD]
    exact addLogEntry_now config locale (n :: rest) _ _ s
  have e2 : (addLogEntry config locale (n :: rest)
      ("Displaying notice: " ++ n.message) n.importance
      (displayNotice config n
        (addLogEntry config locale (n :: rest) "Broadcast system initialized"
          none s))).store.logs =
      [{ timestamp := s.now, message := "Displaying notice: " ++ n.message,
         type := imp },
       { timestamp := s.now, message := "Broadcast system initialized",
         type := "info" }] := by
    rw [addLogEntry_logs_small _ _ _ _ _ _ (by rw [eD]; simp [config]), eD, nowD,
      himp]
    rfl
  refine ⟨?_, ?_, ?_, ?_, ?_⟩
  · rw [addLogEntry_noticeText, setupCloseButton_dom, updateLogsUI_noticeText,
      addLogEntry_noticeText, hD]
  · intro cls hcls
    rw [addLogEntry_noticeBanner, setupCloseButton_dom, updateLogsUI_noticeBanner,
      addLogEntry_noticeBanner, hD, himp] at hcls
    simp only [Option.some.injEq] at hcls
    subst hcls
    exact mem_classListAdd_of_mem "active" (classListAdd_mem_self imp _)
  · rw [addLogEntry_currentNotice, setupCloseButton_store, updateLogsUI_store,
      addLogEntry_currentNotice, hD]
  · rw [addLogEntry_logs_small _ _ _ _ _ _
        (by rw [setupCloseButton_store, updateLogsUI_store, e2]; simp [config])]
    rw [setupCloseButton_store, updateLogsUI_store, e2]
    rfl
  · rw [addLogEntry_displayCount, setupCloseButton_displayCount,
      updateLogsUI_displayCount, addLogEntry_displayCount, hD]
    rw [addLogEntry_displayCount]

/-- C1 witness: initializing the fresh state with the source's own notice
list displays the newest notice (id 7) with its `update` style and logs
it. -/
theorem init_displays_head_witness :
    (init config plainLocale notices freshState).dom.noticeText =
      some "Distrubute your X posts easily with our Quote Generator" ∧
    (∀ cls, (init config plainLocale notices freshState).dom.noticeBanner = some cls →
      "update" ∈ cls) ∧
    (init config plainLocale notices freshState).store.currentNotice =
      some { id := 7,
             message := "Distrubute your X posts easily with our Quote Generator",
             importance := some "update", timestamp := "2025-04-02T02:42:00Z" } ∧
    (init config plainLocale notices freshState).store.logs.get? 1 =
      some { timestamp := freshState.now,
             message := "Displaying notice: Distrubute your X posts easily with our Quote Generator",
             type := "update" } ∧
    (init config plainLocale notices freshState).displayCount =
      freshState.displayCount + 1 :=
  init_displays_head plainLocale
    { id := 7, message := "Distrubute your X posts easily with our Quote Generator",
      importance := some "update", timestamp := "2025-04-02T02:42:00Z" }
    (notices.tail) freshState "update" ["notice-banner"] "" rfl rfl rfl rfl

/-- C5: when the logs container exists, `updateLogsUI` discards its old
contents and rebuilds it as a header, all static notices in list order
(each with its date-and-time display), a second header, then all runtime
log entries in stored newest-first order (each with a time-only display);
consequently every static notice sits at a position strictly before every
runtime log entry. -/
theorem updateLogsUI_rebuild (locale : Locale) (ns : List Notice) (s : State)
    (c : List LogNode) (h : s.dom.logsContainer = some c) :
    (updateLogsUI locale ns s).dom.logsContainer =
      some (LogNode.header "Notice History:" ::
        (ns.map (noticeLogNode locale) ++
          LogNode.header "System Logs:" :: s.store.logs.map (logLogNode locale))) ∧
    (∀ (i j : Nat) (hi : i < ns.length) (hj : j < s.store.logs.length),
      ((updateLogsUI locale ns s).dom.logsContainer.getD [])[1 + i]? =
        some (noticeLogNode locale ns[i]) ∧
      ((updateLogsUI locale ns s).dom.logsContainer.getD [])[2 + ns.length + j]? =
        some (logLogNode locale s.store.logs[j]) ∧
      1 + i < 2 + ns.length + j) := by
  have hmain : (updateLogsUI locale ns s).dom.logsContainer =
      some (LogNode.header "Notice History:" ::
        (ns.map (noticeLogNode locale) ++
          LogNode.header "System Logs:" :: s.store.logs.map (logLogNode locale))) := by
    unfold updateLogsUI
    rw [h]
  refine ⟨hmain, ?_⟩
  intro i j hi hj
  rw [hmain]
  simp only [Option.getD_some]
  refine ⟨?_, ?_, by omega⟩
  · rw [Nat.add_comm 1 i, List.getElem?_cons_succ,
      List.getElem?_append_left (by simpa using hi),
      List.getElem?_map, List.getElem?_eq_getElem hi]
    rfl
  · rw [show 2 + ns.length + j = (1 + ns.length + j) + 1 from by omega,
      List.getElem?_cons_succ,
      List.getElem?_append_right (by simp; omega)]
    rw [show 1 + ns.length + j - (ns.map (noticeLogNode locale)).length = j + 1 from
        by simp; omega,
      List.getElem?_cons_succ, List.getElem?_map, List.getElem?_eq_getElem hj]
    rfl

/-- C5 witness: a fresh state with one stored log entry and the source's
notice list renders headers, the seven notices, then the entry, with the
first notice strictly before the runtime entry. -/
theorem updateLogsUI_rebuild_witness :
    (updateLogsUI plainLocale notices
        { freshState with store := { freshState.store with
            logs := [{ timestamp := "2026-01-01T00:00:00.000Z",
                       message := "hello", type := "info" }] } }).dom.logsContainer =
      some (LogNode.header "Notice History:" ::
        (notices.map (noticeLogNode plainLocale) ++
          LogNode.header "System Logs:" ::
            [({ timestamp := "2026-01-01T00:00:00.000Z", message := "hello",
                type := "info" } : LogEntry)].map (logLogNode plainLocale))) :=
  (updateLogsUI_rebuild plainLocale notices
    { freshState with store := { freshState.store with
        logs := [{ timestamp := "2026-01-01T00:00:00.000Z",
                   message := "hello", type := "info" }] } }
    [] rfl).1

/-- C2: folding N `addLogEntry` calls with cap C over an empty log leaves,
when N exceeds C, exactly the C newest entries in newest-first order (the
oldest evicted); any single `addLogEntry` leaves at most C entries; the
shipped cap is 50. -/
theorem addLogEntry_cap (cfg : Config) (locale : Locale) (ns : List Notice)
    (ms : List (String × Option String)) (s : State)
    (h0 : s.store.logs = []) (hN : cfg.maxLogEntries < ms.length) :
    (List.foldl (fun st m => addLogEntry cfg locale ns m.1 m.2 st) s ms).store.logs =
      ((ms.map (fun m =>
        ({ timestamp := s.now, message := m.1, type := m.2.getD "info" } : LogEntry))).reverse).take
        cfg.maxLogEntries ∧
    (List.foldl (fun st m => addLogEntry cfg locale ns m.1 m.2 st) s
        ms).store.logs.length = cfg.maxLogEntries ∧
    (∀ (st : State) (m : String) (ty : Option String),
      (addLogEntry cfg locale ns m ty st).store.logs.length ≤ cfg.maxLogEntries) ∧
    config.maxLogEntries = 50 := by
  obtain ⟨hl, -⟩ := foldl_addLogEntry_logs cfg locale ns ms s (by simp [h0])
  rw [h0, List.append_nil] at hl
  refine ⟨hl, ?_, ?_, rfl⟩
  · rw [hl, List.length_take, List.length_reverse, List.length_map]
    exact Nat.min_eq_left (Nat.le_of_lt hN)
  · intro st m ty
    rw [addLogEntry_store_logs, List.length_take]
    exact Nat.min_le_left _ _

/-- C2 witness: three appends with cap 2 keep exactly the two newest
entries, newest first. -/
theorem addLogEntry_cap_witness :
    (List.foldl (fun st m => addLogEntry smallConfig plainLocale [] m.1 m.2 st)
        freshState
        [("a", (none : Option String)), ("b", some "warning"), ("c", none)]).store.logs =
      (([("a", (none : Option String)), ("b", some "warning"), ("c", none)].map
          (fun m =>
        ({ timestamp := freshState.now, message := m.1, type := m.2.getD "info" } : LogEntry))).reverse).take
        smallConfig.maxLogEntries ∧
    (List.foldl (fun st m => addLogEntry smallConfig plainLocale [] m.1 m.2 st)
        freshState
        [("a", (none : Option String)), ("b", some "warning"),
         ("c", none)]).store.logs.length = smallConfig.maxLogEntries ∧
    (∀ (st : State) (m : String) (ty : Option String),
      (addLogEntry smallConfig plainLocale [] m ty st).store.logs.length ≤
        smallConfig.maxLogEntries) ∧
    config.maxLogEntries = 50 :=
  addLogEntry_cap smallConfig plainLocale []
    [("a", none), ("b", some "warning"), ("c", none)] freshState rfl (by decide)

/-- C3: at most one auto-hide timer is ever pending: `displayNotice` and
`hideNotice` preserve the one-timer invariant; a display on a live page
cancels any outstanding timer and leaves exactly one fresh timer with the
configured duration, so after two displays only the second timer is live,
the first timer's handle fires as a no-op (the banner stays visible, its
`active` class in place), and the shipped duration is 15000 ms. -/
theorem display_single_timer :
    (∀ (cfg : Config) (n : Notice) (s : State),
        atMostOneTimer s → atMostOneTimer (displayNotice cfg n s)) ∧
    (∀ s : State, atMostOneTimer s → atMostOneTimer (hideNotice s)) ∧
    (∀ (cfg : Config) (n m : Notice) (s : State) (b : List String) (t : String),
        s.dom.noticeBanner = some b → s.dom.noticeText = some t →
        atMostOneTimer s →
        (displayNotice cfg n s).pendingTimers
          = [(s.nextTimerId, cfg.noticeDisplayTime)] ∧
        (displayNotice cfg m (displayNotice cfg n s)).pendingTimers
          = [(s.nextTimerId + 1, cfg.noticeDisplayTime)] ∧
        fireTimer s.nextTimerId (displayNotice cfg m (displayNotice cfg n s))
          = displayNotice cfg m (displayNotice cfg n s) ∧
        (∀ cls,
          (displayNotice cfg m (displayNotice cfg n s)).dom.noticeBanner = some cls →
          "active" ∈ cls)) ∧
    config.noticeDisplayTime = 15000 := by
  refine ⟨?_, ?_, ?_, rfl⟩
  · intro cfg n s h
    cases hb : s.dom.noticeBanner with
    | none => rw [displayNotice_missing cfg n s (Or.inl hb)]; exact h
    | some b =>
      cases ht : s.dom.noticeText with
      | none => rw [displayNotice_missing cfg n s (Or.inr ht)]; exact h
      | some t =>
        rw [displayNotice_some cfg n s b t hb ht]
        have hcl := cleared_of_atMostOne s h
        simp only [atMostOneTimer]
        rw [hcl]
        simp
  · intro s h
    obtain ⟨h1, h2⟩ := h
    rcases s with ⟨⟨logs, cur, tm⟩, ⟨nb, nt, lc, cb⟩, pt, nid, now, ce, dc⟩
    simp only at h1 h2
    cases tm with
    | none => cases nb <;> exact ⟨h1, h2⟩
    | some id =>
      have hnil : pt.filter (fun x => x.1 ≠ id) = [] := by
        rw [List.filter_eq_nil_iff]
        intro a ha
        have := h2 a ha
        simp only [Option.some.injEq] at this
        simp [this]
      cases nb <;>
        exact ⟨by show (pt.filter (fun x => x.1 ≠ id)).length ≤ 1
                  rw [hnil]
                  simp,
               by show ∀ t ∈ pt.filter (fun x => x.1 ≠ id), (none : Option Nat) = some t.1
                  rw [hnil]
                  simp⟩
  · intro cfg n m s b t hb ht hinv
    have hcl := cleared_of_atMostOne s hinv
    have hD1 := displayNotice_some cfg n s b t hb ht
    have p1 : (displayNotice cfg n s).pendingTimers
        = [(s.nextTimerId, cfg.noticeDisplayTime)] := by
      rw [hD1]
      show (match s.store.noticeTimer with
            | some id => s.pendingTimers.filter (fun x => x.1 ≠ id)
            | none => s.pendingTimers) ++ [(s.nextTimerId, cfg.noticeDisplayTime)] = _
      rw [hcl]
      rfl
    have hD2 := displayNotice_some cfg m (displayNotice cfg n s) _ _
      (by rw [hD1]) (by rw [hD1])
    have hnt1 : (displayNotice cfg n s).store.noticeTimer = some s.nextTimerId := by
      rw [hD1]
    have hnid1 : (displayNotice cfg n s).nextTimerId = s.nextTimerId + 1 := by
      rw [hD1]
    have p2 : (displayNotice cfg m (displayNotice cfg n s)).pendingTimers
        = [(s.nextTimerId + 1, cfg.noticeDisplayTime)] := by
      rw [hD2]
      simp [hnt1, p1, hnid1]
    refine ⟨p1, p2, ?_, ?_⟩
    · unfold fireTimer
      simp [p2]
    · intro cls hcls
      rw [hD2] at hcls
      simp only [Option.some.injEq] at hcls
      subst hcls
      exact classListAdd_mem_self "active" _

/-- C3 witness: on the fresh state (no pending timer) the invariant is
preserved by display and hide, the first display schedules timer 1 for
15000 ms, and a second display leaves exactly timer 2 pending. -/
theorem display_single_timer_witness :
    atMostOneTimer (displayNotice config sampleNotice freshState) ∧
    atMostOneTimer (hideNotice freshState) ∧
    (displayNotice config sampleNotice freshState).pendingTimers = [(1, 15000)] ∧
    (displayNotice config plainNotice
        (displayNotice config sampleNotice freshState)).pendingTimers
      = [(2, 15000)] := by
  have hinv : atMostOneTimer freshState := by
    constructor
    · simp [freshState]
    · intro x hx
      simp [freshState] at hx
  exact ⟨display_single_timer.1 config sampleNotice freshState hinv,
    display_single_timer.2.1 freshState hinv,
    (display_single_timer.2.2.1 config sampleNotice plainNotice freshState
      ["notice-banner"] "" rfl rfl hinv).1,
    (display_single_timer.2.2.1 config sampleNotice plainNotice freshState
      ["notice-banner"] "" rfl rfl hinv).2.1⟩

end Broadcast
